import Mathlib

/-!
Verification of the order service (src/order/app.py) against its
natural-language specification.

The development shallow-embeds the parts of `app.py` that the claims are
about:

* the order record and its mutation endpoints `add_item` (lines 126-158),
  `remove_item` (lines 161-192), `create_order` (lines 87-108) and
  `find_order` (lines 195-217);
* the Redis WATCH/MULTI/EXEC pipeline discipline used by the mutating
  endpoints, modelled as a versioned single-key store;
* the `checkout` endpoint (lines 227-305): its partition-index
  computation (murmur2, lines 263-269), the Kafka producer's key handling
  (lines 220-224, kafka-python's DefaultPartitioner), the published intent
  messages, the reply-resolution loop (lines 288-300), and the sequence of
  externally visible effects of one call, modelled as an event trace.

Machine integers are modelled as `Nat` with explicit masking by `0xffffffff`
exactly where the Python source masks.  Fallible steps return `Option`.
-/

/-- A JSON value as it appears in this service's HTTP responses and
message payloads: a string, a flat list of strings (the `items` field),
a boolean, or an integer.  The service only ever produces these shapes. -/
inductive FieldVal where
  | s (v : String)
  | arr (xs : List String)
  | b (v : Bool)
  | num (n : Int)
deriving DecidableEq, Repr

/-! ## A small JSON reader for the stored `items` field

`create_order` stores `json.dumps([])` and the mutation endpoints store
`json.dumps` of a Python list of strings; `find_order` and `checkout`
recover it with `json.loads`.  The reader below parses exactly that
fragment of JSON: an array of (possibly escaped) string literals.
`none` models a `json.loads` exception (the endpoints' 500 path). -/

/-- Skip JSON whitespace. -/
def skipWs : List Char → List Char
  | c :: rest => if c = ' ' ∨ c = '\n' ∨ c = '\t' ∨ c = '\r' then skipWs rest else c :: rest
  | [] => []

/-- Parse the body of a JSON string literal (after the opening quote),
returning the decoded characters and the input after the closing quote. -/
def parseJString : List Char → Option (List Char × List Char)
  | [] => none
  | '"' :: rest => some ([], rest)
  | '\\' :: e :: rest =>
    (parseJString rest).bind (fun sr =>
      (match e with
        | '"' => some '"'
        | '\\' => some '\\'
        | '/' => some '/'
        | 'n' => some '\n'
        | 't' => some '\t'
        | 'r' => some '\r'
        | 'b' => some (Char.ofNat 8)
        | 'f' => some (Char.ofNat 12)
        | _ => none).map (fun d => (d :: sr.1, sr.2)))
  | c :: rest => (parseJString rest).map (fun sr => (c :: sr.1, sr.2))

/-- Parse the elements of a JSON array of strings after the opening
bracket.  `afterElem` is true when the previous token was an element, so a
comma or the closing bracket is expected next. -/
def parseItemsCore (fuel : Nat) (cs : List Char) (acc : List String) (afterElem : Bool) :
    Option (List String) :=
  match fuel with
  | 0 => none
  | fuel + 1 =>
    match skipWs cs with
    | ']' :: rest =>
      if afterElem ∨ acc.isEmpty then
        (if skipWs rest = [] then some acc.reverse else none)
      else none
    | ',' :: rest => if afterElem then parseItemsCore fuel rest acc false else none
    | '"' :: rest =>
      if afterElem then none
      else
        match parseJString rest with
        | some sr => parseItemsCore fuel sr.2 (String.mk sr.1 :: acc) true
        | none => none
    | _ => none

/-- `json.loads` restricted to arrays of strings, which is the only shape
this service ever stores in the `items` field. -/
def parseItems (s : String) : Option (List String) :=
  match skipWs s.data with
  | '[' :: rest => parseItemsCore (rest.length + 1) rest [] false
  | _ => none

/-! ## The order record and its mutation endpoints -/

/-- The part of the stored order record that `add_item` / `remove_item`
read and write: the decoded `items` list and the integer `total_cost`
(lines 147-153 and 179-187).  The other fields (`order_id`, `user_id`,
`paid`) are never touched by these endpoints. -/
structure OrderRec where
  items : List String
  total_cost : Int
deriving DecidableEq, Repr

/-- Outcome of one mutation endpoint call, before HTTP encoding. -/
inductive OpResult where
  | success
  | orderNotFound
  | itemNotFound
  | itemNotInOrder
deriving DecidableEq, Repr

/-- `add_item` (lines 126-158) as a state transformer on the fetched
order record.  `price` models `get_item_price` (lines 37-46): the stock
service's price oracle, `none` when the item is unknown (non-200 answer).
The second component is the stored record after the call (unchanged on
every error path). -/
def add_item (price : String → Option Int) (order_data : Option OrderRec)
    (item_id : String) : OpResult × Option OrderRec :=
  match order_data with
  | none => (.orderNotFound, order_data)
  | some o =>
    match price item_id with
    | none => (.itemNotFound, order_data)
    | some p =>
      (.success, some { items := o.items ++ [item_id], total_cost := o.total_cost + p })

/-- `remove_item` (lines 161-192): the oracle is consulted (line 176)
BEFORE the membership test (line 180); `items.remove(item_id)` removes the
first occurrence, modelled by `List.erase`; the removal-time oracle price
is subtracted (line 183). -/
def remove_item (price : String → Option Int) (order_data : Option OrderRec)
    (item_id : String) : OpResult × Option OrderRec :=
  match order_data with
  | none => (.orderNotFound, order_data)
  | some o =>
    match price item_id with
    | none => (.itemNotFound, order_data)
    | some p =>
      if item_id ∈ o.items then
        (.success, some { items := o.items.erase item_id, total_cost := o.total_cost - p })
      else (.itemNotInOrder, order_data)

/-- HTTP encoding of a mutation endpoint's outcome (lines 142, 146, 154,
175, 178, 181, 188). -/
def mutationHttp : OpResult → Nat × List (String × FieldVal)
  | .success => (200, [("status", .s "success")])
  | .orderNotFound => (400, [("error", .s "Order not found")])
  | .itemNotFound => (400, [("error", .s "Item not found")])
  | .itemNotInOrder => (400, [("error", .s "Item not in order")])

/-! ## Sequences of mutations (claim C1) -/

/-- One mutation request against an order. -/
inductive Op where
  | add (item_id : String)
  | remove (item_id : String)

/-- Dispatch one request. -/
def stepOp (price : String → Option Int) (order_data : Option OrderRec) :
    Op → OpResult × Option OrderRec
  | .add i => add_item price order_data i
  | .remove i => remove_item price order_data i

/-- Run a sequence of mutation requests in which every request completes
successfully.  Each step carries its own price oracle, because
`get_item_price` asks the stock service anew on every request and the
stock service may change an item's price between requests. -/
def runTimed : List ((String → Option Int) × Op) → Option OrderRec → Option OrderRec
  | [], od => od
  | (pr, op) :: rest, od =>
    match stepOp pr od op with
    | (.success, od1) => runTimed rest od1
    | _ => none

/-- The same run when the oracle's answers are fixed for the whole
sequence. -/
def runFixed (price : String → Option Int) (ops : List Op) (od : Option OrderRec) :
    Option OrderRec :=
  runTimed (ops.map (fun op => (price, op))) od

/-- The record `create_order` writes (lines 93-100): empty items, zero
total cost. -/
def order0 : OrderRec := { items := [], total_cost := 0 }

/-- Sum of the oracle prices of the entries of an item list. -/
def sumPrices (price : String → Option Int) (items : List String) : Int :=
  (items.map (fun i => (price i).getD 0)).sum

/-- The invariant tying `total_cost` to `items` under a fixed oracle:
every entry has a known price and the total is the sum of those prices. -/
def PricedInv (price : String → Option Int) (o : OrderRec) : Prop :=
  (∀ i ∈ o.items, (price i).isSome) ∧ o.total_cost = sumPrices price o.items

/-- A price oracle for concrete tests: the stock service's answer on one
day. -/
def priceDay1 : String → Option Int := fun i => if i = "a" then some 5 else none

/-- The same oracle after the stock service lowered the price of "a". -/
def priceDay2 : String → Option Int := fun i => if i = "a" then some 3 else none

/-- A fixed sample oracle used by witnesses. -/
def samplePrice : String → Option Int :=
  fun i => if i = "a" then some 5 else if i = "b" then some 3 else none

/-! ## Stored records: `create_order` and `find_order` (claim C10) -/

/-- The hash fields `create_order` writes (lines 96-100), in `hset` order.
Every value is the raw string Redis stores: redis-py encodes the Python
`int` argument `0` as the decimal string "0", `paid` is written as the
literal string "False", and `items` as `json.dumps([])`. -/
def create_order (user_id order_id : String) : List (String × String) :=
  [("order_id", order_id),
   ("paid", "False"),
   ("items", "[]"),
   ("user_id", user_id),
   ("total_cost", "0")]

/-- The dict comprehension of `find_order` (lines 207-212): the value of
the `items` key is decoded with `json.loads`, every other value is
returned as the stored string verbatim.  `none` models a decoding
exception (the endpoint's 500 path). -/
def decodeFields : List (String × String) → Option (List (String × FieldVal))
  | [] => some []
  | (k, v) :: rest =>
    (if k = "items" then (parseItems v).map FieldVal.arr else some (.s v)).bind
      (fun fv => (decodeFields rest).map (fun out => (k, fv) :: out))

/-- `find_order` (lines 195-217) on a fetched, non-empty record. -/
def find_order (order_data : List (String × String)) : Option (List (String × FieldVal)) :=
  decodeFields order_data

/-! ## The Redis pipeline discipline of the mutating endpoints (claim C3)

The mutating endpoints run

  pipe.watch(order_key); pipe.multi(); <reads>; pipe.execute();
  <compute>; pipe.multi(); <writes>; pipe.execute()

Redis clears every WATCH when EXEC runs, whether the transaction commits
or aborts, and redis-py's `Pipeline.execute` additionally resets the
pipeline in a `finally` block.  The model below is a single order key with
a version counter that every committed write bumps. -/

/-- The order key's state: its stored value and a version counter. -/
structure KVState where
  val : Option OrderRec
  ver : Nat
deriving DecidableEq, Repr

/-- `pipe.watch(order_key)`: record the key's current version. -/
def watchVer (s : KVState) : Option Nat := some s.ver

/-- `pipe.execute()` of a MULTI/EXEC block, optionally writing the key.
If a version was watched and the key changed since, the transaction
aborts (first component `false`).  In every case the watch is consumed:
the returned watch state is `none`. -/
def execTx (watched : Option Nat) (s : KVState) (write : Option OrderRec) :
    Bool × KVState × Option Nat :=
  match watched with
  | some v =>
    if s.ver = v then
      match write with
      | none => (true, s, none)
      | some nv => (true, { val := some nv, ver := s.ver + 1 }, none)
    else (false, s, none)
  | none =>
    match write with
    | none => (true, s, none)
    | some nv => (true, { val := some nv, ver := s.ver + 1 }, none)

/-- Outcome of an `add_item` call raced by a concurrent writer. -/
inductive RaceResult where
  | success
  | conflict
  | orderNotFound
  | itemNotFound
deriving DecidableEq, Repr

/-- `add_item` (lines 126-158) interleaved with a concurrent writer whose
own transaction commits `other` between this call's first `execute()`
(the watched read, lines 132-136) and its second `execute()` (the write,
lines 150-153).  `price` is the oracle's answer for `item_id`. -/
def add_item_raced (s0 : KVState) (other : OrderRec) (item_id : String)
    (price : Option Int) : RaceResult × KVState :=
  let w0 := watchVer s0
  match execTx w0 s0 none with
  | (false, s1, _) => (.conflict, s1)
  | (true, s1, w1) =>
    match s1.val with
    | none => (.orderNotFound, s1)
    | some o =>
      match price with
      | none => (.itemNotFound, s1)
      | some p =>
        let s2 : KVState := { val := some other, ver := s1.ver + 1 }
        match execTx w1 s2 (some { items := o.items ++ [item_id],
                                   total_cost := o.total_cost + p }) with
        | (true, s3, _) => (.success, s3)
        | (false, s3, _) => (.conflict, s3)

/-! ## The partition index (claim C2)

`checkout` computes `murmur2(global_transaction_id.encode('utf-8'))`,
masks the sign bit and reduces modulo the partition count (lines
266-269).  The producer (lines 220-224) first runs every key through
`key_serializer = lambda v: json.dumps(v).encode('utf-8')` and hands the
SERIALIZED bytes to kafka-python's DefaultPartitioner, which applies the
same murmur2 / mask / modulo steps. -/

/-- The chunk loop and tail handling of kafka-python's `murmur2`
(kafka/partitioner/default.py, linked from app.py lines 263-264),
transcribed with `Nat` arithmetic and the source's explicit
`& 0xffffffff` masks. -/
def murmur2Go (h : Nat) : List Nat → Nat
  | b0 :: b1 :: b2 :: b3 :: rest =>
    let k1 := ((b0 &&& 0xff) + ((b1 &&& 0xff) <<< 8) +
               ((b2 &&& 0xff) <<< 16) + ((b3 &&& 0xff) <<< 24)) &&& 0xffffffff
    let k2 := (k1 * 0x5bd1e995) &&& 0xffffffff
    let k3 := (k2 ^^^ (k2 >>> 24)) &&& 0xffffffff
    let k4 := (k3 * 0x5bd1e995) &&& 0xffffffff
    let h1 := (h * 0x5bd1e995) &&& 0xffffffff
    let h2 := (h1 ^^^ k4) &&& 0xffffffff
    murmur2Go h2 rest
  | [b0, b1, b2] =>
    let h1 := (h ^^^ ((b2 &&& 0xff) <<< 16)) &&& 0xffffffff
    let h2 := (h1 ^^^ ((b1 &&& 0xff) <<< 8)) &&& 0xffffffff
    let h3 := (h2 ^^^ (b0 &&& 0xff)) &&& 0xffffffff
    (h3 * 0x5bd1e995) &&& 0xffffffff
  | [b0, b1] =>
    let h2 := (h ^^^ ((b1 &&& 0xff) <<< 8)) &&& 0xffffffff
    let h3 := (h2 ^^^ (b0 &&& 0xff)) &&& 0xffffffff
    (h3 * 0x5bd1e995) &&& 0xffffffff
  | [b0] =>
    let h3 := (h ^^^ (b0 &&& 0xff)) &&& 0xffffffff
    (h3 * 0x5bd1e995) &&& 0xffffffff
  | [] => h

/-- kafka-python's `murmur2` (seed `0x9747b28c`, multiplier `0x5bd1e995`),
returning the unsigned 32-bit hash. -/
def murmur2 (data : List Nat) : Nat :=
  let h := murmur2Go (0x9747b28c ^^^ data.length) data
  let h1 := (h ^^^ (h >>> 13)) &&& 0xffffffff
  let h2 := (h1 * 0x5bd1e995) &&& 0xffffffff
  (h2 ^^^ (h2 >>> 15)) &&& 0xffffffff

/-- The DefaultPartitioner's index for key bytes on a topic whose
partitions are numbered `0 .. n-1`: hash, clear the sign bit, reduce
modulo the partition count. -/
def defaultPartition (keyBytes : List Nat) (n : Nat) : Nat :=
  ((murmur2 keyBytes) &&& 0x7fffffff) % n

/-- UTF-8 encoding of one character (Python's `str.encode('utf-8')`). -/
def utf8BytesOfChar (c : Char) : List Nat :=
  let n := c.toNat
  if n < 0x80 then [n]
  else if n < 0x800 then
    [0xc0 ||| (n >>> 6), 0x80 ||| (n &&& 0x3f)]
  else if n < 0x10000 then
    [0xe0 ||| (n >>> 12), 0x80 ||| ((n >>> 6) &&& 0x3f), 0x80 ||| (n &&& 0x3f)]
  else
    [0xf0 ||| (n >>> 18), 0x80 ||| ((n >>> 12) &&& 0x3f),
     0x80 ||| ((n >>> 6) &&& 0x3f), 0x80 ||| (n &&& 0x3f)]

/-- `s.encode('utf-8')` as a byte list. -/
def strBytes (s : String) : List Nat := s.data.flatMap utf8BytesOfChar

/-- Lower-case hexadecimal digit. -/
def hexDigitChar (n : Nat) : Char :=
  if n < 10 then Char.ofNat (48 + n) else Char.ofNat (87 + n)

/-- Four-digit lower-case hexadecimal rendering, as in Python's `\uXXXX`
escapes. -/
def hex4 (n : Nat) : List Char :=
  [hexDigitChar ((n >>> 12) &&& 0xf), hexDigitChar ((n >>> 8) &&& 0xf),
   hexDigitChar ((n >>> 4) &&& 0xf), hexDigitChar (n &&& 0xf)]

/-- Python `json.dumps` escaping of one character of a string (default
`ensure_ascii=True`: everything outside `0x20 .. 0x7e` is escaped, code
points above `0xffff` as a surrogate pair). -/
def jsonEscapeChar (c : Char) : List Char :=
  if c = '"' then ['\\', '"']
  else if c = '\\' then ['\\', '\\']
  else if c = '\n' then ['\\', 'n']
  else if c = '\t' then ['\\', 't']
  else if c = '\r' then ['\\', 'r']
  else if c.toNat = 8 then ['\\', 'b']
  else if c.toNat = 12 then ['\\', 'f']
  else if c.toNat < 0x20 ∨ c.toNat > 0x7e then
    if c.toNat < 0x10000 then '\\' :: 'u' :: hex4 c.toNat
    else
      let v := c.toNat - 0x10000
      ('\\' :: 'u' :: hex4 (0xd800 + (v >>> 10))) ++
      ('\\' :: 'u' :: hex4 (0xdc00 + (v &&& 0x3ff)))
  else [c]

/-- `json.dumps` of a Python string: the escaped characters wrapped in
double quotes. -/
def jsonDumpsString (s : String) : String :=
  String.mk ('"' :: (s.data.flatMap jsonEscapeChar) ++ ['"'])

/-- The partition index `checkout` computes (lines 266-269): murmur2 over
the RAW utf-8 bytes of the correlation id. -/
def checkoutPartitionIndex (gtid : String) (n : Nat) : Nat :=
  defaultPartition (strBytes gtid) n

/-- The partition index the producer's DefaultPartitioner actually
chooses for the same key: murmur2 over the SERIALIZED key bytes, i.e.
`json.dumps(key).encode('utf-8')` (lines 220-224). -/
def producerPartitionIndex (key : String) (n : Nat) : Nat :=
  defaultPartition (strBytes (jsonDumpsString key)) n

/-! ## Reply resolution (claim C4) -/

/-- The saga outcome of the reply loop. -/
inductive Outcome where
  | success
  | paymentFailed
  | timedOut
deriving DecidableEq, Repr

/-- The reply loop of `checkout` (lines 288-300) over the sequence of
messages the consumer yields before the 10-second deadline expires
(`consumer_timeout_ms=10000` plus the explicit `time.time() > timeout`
break abstract to: the list ends when the deadline is reached).  Each
message is its deserialized key and the `status` field of its value.  The
first message whose key equals the correlation id decides the outcome;
all other messages are skipped; an exhausted list is the timeout path
(line 300). -/
def resolveReplies (gtid : String) : List (String × String) → Outcome
  | [] => .timedOut
  | (k, status) :: rest =>
    if k = gtid then (if status = "success" then .success else .paymentFailed)
    else resolveReplies gtid rest

/-- HTTP encoding of the saga outcome (lines 294, 296, 300). -/
def respOf : Outcome → Nat × List (String × FieldVal)
  | .success => (200, [("status", .s "success")])
  | .paymentFailed => (400, [("error", .s "Payment failed")])
  | .timedOut => (400, [("error", .s "Wait too long, quit")])

/-! ## The published intent messages and the checkout event trace
(claims C5, C6, C8) -/

/-- The value published to `stock_check_topic` (lines 273-281).  Note the
field is spelled `is_roll_back` and carries the STRING "false", exactly
as in the source. -/
structure StockCheckMsg where
  affected_items : List String
  action : String
  is_roll_back : FieldVal
deriving DecidableEq, Repr

/-- The value published to `payment_processing_topic` (lines 282-286). -/
structure PaymentMsg where
  order_data : List (String × FieldVal)
  action : String
  is_roll_back : FieldVal
deriving DecidableEq, Repr

/-- The stock intent `checkout` builds. -/
def stockCheckMsgOf (items : List String) : StockCheckMsg :=
  { affected_items := items, action := "remove", is_roll_back := .s "false" }

/-- The payment intent `checkout` builds. -/
def paymentMsgOf (od : List (String × FieldVal)) : PaymentMsg :=
  { order_data := od, action := "pay", is_roll_back := .s "false" }

/-- The externally visible effects of one `checkout` call, in program
order. -/
inductive Ev where
  | watchOrderKey
  | readExec
  | createConsumer
  | assignPartition (topic : String) (index : Nat)
  | sendStock (msg : StockCheckMsg)
  | sendPayment (msg : PaymentMsg)
  | closeConsumer
  | httpReturn (code : Nat) (body : List (String × FieldVal))
  | unwatchOrderKey
deriving DecidableEq, Repr

/-- The decoded item list of the fetched order record
(`json.loads(order_data["items"])`, lines 250-251).  A missing or
malformed `items` value raises in Python (500 path); the trace model
assumes the well-formed records this service itself writes. -/
def checkoutItems (fields : List (String × String)) : List String :=
  (parseItems ((fields.lookup "items").getD "[]")).getD []

/-- `order_data` after `order_data["items"] = list_data` (line 252): the
fetched strings with the `items` entry replaced by the decoded list. -/
def checkoutOrderData (fields : List (String × String)) : List (String × FieldVal) :=
  fields.map (fun kv =>
    if kv.1 = "items" then (kv.1, FieldVal.arr (checkoutItems fields))
    else (kv.1, .s kv.2))

/-- The event trace of one `checkout` call (lines 227-305).  `fopt` is the
fetched order record (`none` when the key does not exist), `gtid` the
fresh correlation id, `n` the partition count of `order_result_topic`,
and `msgs` the reply messages the consumer yields before the deadline.
The `finally` block (lines 304-305) only releases the Redis watch; no
path ever closes the consumer. -/
def checkoutEvents (gtid : String) (n : Nat) (fopt : Option (List (String × String)))
    (msgs : List (String × String)) : List Ev :=
  match fopt with
  | none =>
    [.watchOrderKey, .readExec,
     .httpReturn 400 [("error", .s "Order not found")],
     .unwatchOrderKey]
  | some fields =>
    [.watchOrderKey, .readExec,
     .createConsumer,
     .assignPartition "order_result_topic" (checkoutPartitionIndex gtid n),
     .sendStock (stockCheckMsgOf (checkoutItems fields)),
     .sendPayment (paymentMsgOf (checkoutOrderData fields)),
     .httpReturn (respOf (resolveReplies gtid msgs)).1 (respOf (resolveReplies gtid msgs)).2,
     .unwatchOrderKey]

/-- Is the event a publish of an intent message? -/
def isSendEv : Ev → Bool
  | .sendStock _ => true
  | .sendPayment _ => true
  | _ => false

/-- Is the event the partition assignment of the reply consumer? -/
def isAssignEv : Ev → Bool
  | .assignPartition _ _ => true
  | _ => false

/-- Is the event the creation of the reply consumer? -/
def isCreateEv : Ev → Bool
  | .createConsumer => true
  | _ => false

/-- Is the event a teardown of the reply consumer? -/
def isCloseEv : Ev → Bool
  | .closeConsumer => true
  | _ => false

/-- Does the event, if it is a publish, carry `is_roll_back` equal to the
string "false"? -/
def rollbackStringFalse : Ev → Bool
  | .sendStock m => m.is_roll_back == .s "false"
  | .sendPayment m => m.is_roll_back == .s "false"
  | _ => true

/-! ## Helper lemmas -/

/-- A run that has already failed stays failed. -/
theorem runTimed_none : ∀ l : List ((String → Option Int) × Op), runTimed l none = none
  | [] => rfl
  | (pr, op) :: rest => by
    cases op <;> simp [runTimed, stepOp, add_item, remove_item]

/-- Appending one item adds its price to the sum. -/
theorem sumPrices_append_single (price : String → Option Int) (l : List String) (i : String) :
    sumPrices price (l ++ [i]) = sumPrices price l + (price i).getD 0 := by
  simp [sumPrices]

/-- Erasing one occurrence of a present item subtracts its price from the
sum. -/
theorem sumPrices_erase (price : String → Option Int) (a : String) :
    ∀ l : List String, a ∈ l →
      sumPrices price (l.erase a) = sumPrices price l - (price a).getD 0 := by
  intro l
  induction l with
  | nil => intro h; cases h
  | cons b t ih =>
    intro h
    rcases eq_or_ne b a with hba | hba
    · subst hba
      simp [sumPrices, List.erase_cons_head]
    · have he : (b :: t).erase a = b :: t.erase a := by
        simp [List.erase_cons, hba]
      have ha : a ∈ t := by
        rcases List.mem_cons.mp h with h1 | h1
        · exact absurd h1.symm hba
        · exact h1
      rw [he]
      simp only [sumPrices, List.map_cons, List.sum_cons] at *
      rw [ih ha]
      ring

/-- One successful mutation preserves the fixed-oracle invariant. -/
theorem stepOp_inv (price : String → Option Int) (o o' : OrderRec) (op : Op)
    (hstep : stepOp price (some o) op = (.success, some o'))
    (hinv : PricedInv price o) : PricedInv price o' := by
  obtain ⟨hmem, hsum⟩ := hinv
  cases op with
  | add i =>
    simp only [stepOp, add_item] at hstep
    cases hp : price i with
    | none => rw [hp] at hstep; simp at hstep
    | some p =>
      rw [hp] at hstep
      simp only [Prod.mk.injEq, Option.some.injEq] at hstep
      obtain ⟨-, ho'⟩ := hstep
      subst ho'
      constructor
      · intro j hj
        rcases List.mem_append.mp hj with hj | hj
        · exact hmem j hj
        · simp only [List.mem_singleton] at hj
          subst hj
          simp [hp]
      · simp only
        rw [sumPrices_append_single, ← hsum, hp]
        rfl
  | remove i =>
    cases hp : price i with
    | none => simp [stepOp, remove_item, hp] at hstep
    | some p =>
      by_cases hi : i ∈ o.items
      · simp only [stepOp, remove_item, hp, hi, if_true, Prod.mk.injEq,
          Option.some.injEq] at hstep
        obtain ⟨-, ho'⟩ := hstep
        subst ho'
        constructor
        · intro j hj
          exact hmem j (List.erase_subset i o.items hj)
        · simp only
          rw [sumPrices_erase price i o.items hi, ← hsum, hp]
          rfl
      · simp [stepOp, remove_item, hp, hi] at hstep

/-- Running a successful sequence under a fixed oracle preserves the
invariant. -/
theorem runFixed_inv (price : String → Option Int) :
    ∀ (ops : List Op) (o o' : OrderRec),
      PricedInv price o → runFixed price ops (some o) = some o' →
      PricedInv price o' := by
  intro ops
  induction ops with
  | nil =>
    intro o o' h hrun
    simp only [runFixed, List.map_nil, runTimed, Option.some.injEq] at hrun
    exact hrun ▸ h
  | cons op rest ih =>
    intro o o' h hrun
    simp only [runFixed, List.map_cons, runTimed] at hrun
    cases hst : stepOp price (some o) op with
    | mk r od1 =>
      rw [hst] at hrun
      cases r with
      | success =>
        simp only at hrun
        cases od1 with
        | none => rw [runTimed_none] at hrun; cases hrun
        | some o1 =>
          exact ih o1 o' (stepOp_inv price o o1 op hst h) hrun
      | orderNotFound => simp at hrun
      | itemNotFound => simp at hrun
      | itemNotInOrder => simp at hrun

/-- A MULTI/EXEC block that holds no watch always commits: the guard of
the mutating endpoints' second `execute()` is gone. -/
theorem second_exec_unguarded (s : KVState) (w : Option OrderRec) :
    (execTx none s w).1 = true := by
  cases w <;> rfl

/-- The dict comprehension of `find_order` leaves every non-`items` value
verbatim. -/
theorem decodeFields_verbatim :
    ∀ (od : List (String × String)) (out : List (String × FieldVal)),
      decodeFields od = some out →
      ∀ k v, (k, v) ∈ od → k ≠ "items" → (k, FieldVal.s v) ∈ out := by
  intro od
  induction od with
  | nil => intro out h k v hm; cases hm
  | cons kv rest ih =>
    intro out h k v hm hk
    obtain ⟨k0, v0⟩ := kv
    simp only [decodeFields, Option.bind_eq_some, Option.map_eq_some'] at h
    obtain ⟨fv, hfv, out', hrest, hout⟩ := h
    subst hout
    rcases List.mem_cons.mp hm with hm1 | hm1
    · obtain ⟨hk0, hv0⟩ := Prod.mk.injEq .. ▸ hm1
      subst hk0; subst hv0
      rw [if_neg hk] at hfv
      simp only [Option.some.injEq] at hfv
      subst hfv
      exact List.mem_cons_self _ _
    · exact List.mem_cons_of_mem _ (ih out' hrest k v hm1 hk)

/-! ## Claim theorems -/

/-- Claim C1 (corrected): for a price oracle whose answers are fixed for
the whole sequence, after every sequence of completed addItem/removeItem
operations starting from a freshly created order, `total_cost` equals the
sum of the per-unit prices of the entries currently in `items`.  (The
code subtracts the REMOVAL-time oracle price, not the insertion-time
price, so the invariant needs the fixed-oracle proviso; see the
counterexample.) -/
theorem total_cost_invariant_fixed_oracle (price : String → Option Int)
    (ops : List Op) (o' : OrderRec)
    (h : runFixed price ops (some order0) = some o') :
    o'.total_cost = sumPrices price o'.items :=
  (runFixed_inv price ops order0 o'
    ⟨fun i hi => absurd hi (List.not_mem_nil i), rfl⟩ h).2

/-- Witness for the C1 theorem at a concrete oracle and sequence: add "a"
(price 5), add "b" (price 3), remove "a" — final record has items ["b"]
and total_cost 3 = sum of prices. -/
theorem total_cost_invariant_fixed_oracle_witness :
    runFixed samplePrice [.add "a", .add "b", .remove "a"] (some order0) =
      some { items := ["b"], total_cost := 3 } ∧
    ({ items := ["b"], total_cost := 3 } : OrderRec).total_cost =
      sumPrices samplePrice ["b"] :=
  have h1 : runFixed samplePrice [.add "a", .add "b", .remove "a"] (some order0) =
      some { items := ["b"], total_cost := 3 } := by decide
  ⟨h1, total_cost_invariant_fixed_oracle samplePrice _ _ h1⟩

/-- Claim C1 counterexample: the oracle price of "a" drops from 5 to 3
between the addItem and the removeItem.  After the remove, `items` is
empty — so the sum of insertion-time prices of the current entries is 0 —
but `total_cost` is 5 - 3 = 2, because `remove_item` subtracts the
removal-time price. -/
theorem total_cost_time_varying_counterexample :
    runTimed [(priceDay1, .add "a"), (priceDay2, .remove "a")] (some order0) =
      some { items := [], total_cost := 2 } ∧
    sumPrices priceDay1 [] = 0 ∧ sumPrices priceDay2 [] = 0 ∧ ((2 : Int) ≠ 0) :=
  ⟨by decide, by decide, by decide, by decide⟩

/-- Claim C2 (code bug): at correlation id
"21870581-d594-43fa-90fd-ea55f3b1a755" and a 3-partition topic, checkout
computes partition 0 from the raw utf-8 key bytes (lines 266-269), while
the producer's DefaultPartitioner — which receives the key only after
`key_serializer` wraps it in JSON quotes (lines 220-224) — chooses
partition 2.  The two indices differ, refuting the claim that they always
agree. -/
theorem partition_index_mismatch :
    checkoutPartitionIndex "21870581-d594-43fa-90fd-ea55f3b1a755" 3 = 0 ∧
    producerPartitionIndex "21870581-d594-43fa-90fd-ea55f3b1a755" 3 = 2 ∧
    ((0 : Nat) ≠ 2) :=
  ⟨by decide, by decide, by decide⟩

/-- Claim C3 (code bug): `add_item`'s first `execute()` consumes the
WATCH, so its second `execute()` commits unconditionally.  A concurrent
write (items ["b"], cost 7) landing between the read and the commit is
silently overwritten by the stale computation (items ["a"], cost 5) and
the call answers success, not a conflict. -/
theorem add_item_lost_update :
    add_item_raced { val := some { items := [], total_cost := 0 }, ver := 0 }
        { items := ["b"], total_cost := 7 } "a" (some 5) =
      (.success, { val := some { items := ["a"], total_cost := 5 }, ver := 2 }) ∧
    ({ items := ["a"], total_cost := 5 } : OrderRec) ≠ { items := ["b"], total_cost := 7 } :=
  ⟨by decide, by decide⟩

/-- Claim C4 (confirmed): over the reply messages the consumer yields
before the 10-second deadline, a matching-key reply with status "success"
resolves to HTTP 200 with status success; a matching-key reply with any
other status resolves to HTTP 400 "Payment failed"; a non-matching key is
skipped; and an exhausted stream (no matching reply before the deadline)
resolves to HTTP 400 "Wait too long, quit". -/
theorem checkout_reply_resolution (gtid k status : String)
    (rest msgs : List (String × String)) :
    resolveReplies gtid ((gtid, "success") :: rest) = .success ∧
    (status ≠ "success" → resolveReplies gtid ((gtid, status) :: rest) = .paymentFailed) ∧
    (k ≠ gtid → resolveReplies gtid ((k, status) :: rest) = resolveReplies gtid rest) ∧
    ((∀ m ∈ msgs, m.1 ≠ gtid) → resolveReplies gtid msgs = .timedOut) ∧
    respOf .success = (200, [("status", .s "success")]) ∧
    respOf .paymentFailed = (400, [("error", .s "Payment failed")]) ∧
    respOf .timedOut = (400, [("error", .s "Wait too long, quit")]) := by
  refine ⟨by simp [resolveReplies], ?_, ?_, ?_, rfl, rfl, rfl⟩
  · intro h; simp [resolveReplies, h]
  · intro h; simp [resolveReplies, h]
  · induction msgs with
    | nil => intro h; rfl
    | cons m t ih =>
      intro h
      obtain ⟨k0, st0⟩ := m
      have hk : k0 ≠ gtid := h (k0, st0) (List.mem_cons_self _ _)
      simp only [resolveReplies, if_neg hk]
      exact ih (fun m hm => h m (List.mem_cons_of_mem _ hm))

/-- Witness for the C4 theorem at concrete inputs: a success reply, a
failure reply, a skipped foreign-key message, and a stream with no
matching key. -/
theorem checkout_reply_resolution_witness :
    resolveReplies "g" [("g", "success")] = .success ∧
    resolveReplies "g" [("g", "failure")] = .paymentFailed ∧
    resolveReplies "g" [("x", "failure")] = resolveReplies "g" [] ∧
    resolveReplies "g" [("x", "success")] = .timedOut :=
  have h := checkout_reply_resolution "g" "x" "failure" [] [("x", "success")]
  ⟨h.1, h.2.1 (by decide), h.2.2.1 (by decide),
   (checkout_reply_resolution "g" "x" "failure" [] [("x", "success")]).2.2.2.1
     (by intro m hm; simp at hm; subst hm; decide)⟩

/-- Claim C5 (code bug): on the modelled exit paths of `checkout` —
found-order with a success, failure or timeout resolution, and
order-not-found — the trace creates the reply consumer (when the order
exists) but never contains a consumer teardown: the `finally` block
(lines 304-305) only releases the Redis watch. -/
theorem consumer_never_closed (gtid : String) (n : Nat)
    (fields : List (String × String)) (msgs : List (String × String)) :
    (checkoutEvents gtid n (some fields) msgs).countP isCreateEv = 1 ∧
    (checkoutEvents gtid n (some fields) msgs).countP isCloseEv = 0 ∧
    (checkoutEvents gtid n none msgs).countP isCloseEv = 0 :=
  ⟨rfl, rfl, rfl⟩

/-- Claim C6 (confirmed): in every found-order checkout execution, no
publish event precedes the partition assignment of the reply consumer:
the prefix of the trace before the (unique) assignment event contains no
send, and both intent publishes occur in the trace. -/
theorem subscribe_before_publish (gtid : String) (n : Nat)
    (fields : List (String × String)) (msgs : List (String × String)) :
    ((checkoutEvents gtid n (some fields) msgs).takeWhile
        (fun e => !isAssignEv e)).all (fun e => !isSendEv e) = true ∧
    (checkoutEvents gtid n (some fields) msgs).countP isAssignEv = 1 ∧
    (checkoutEvents gtid n (some fields) msgs).countP isSendEv = 2 :=
  ⟨rfl, rfl, rfl⟩

/-- Claim C7 (corrected): for an existing order and an item the price
oracle knows that is not in the order's items, `remove_item` leaves the
record unchanged and reports "Item not in order" with HTTP 400.  (The
oracle proviso is forced: an item the oracle does not know yields "Item
not found" instead — see the counterexample.) -/
theorem removeItem_not_in_order (price : String → Option Int) (o : OrderRec)
    (i : String) (p : Int) (hp : price i = some p) (hni : i ∉ o.items) :
    remove_item price (some o) i = (.itemNotInOrder, some o) ∧
    mutationHttp .itemNotInOrder = (400, [("error", .s "Item not in order")]) :=
  ⟨by simp [remove_item, hp, hni], rfl⟩

/-- Witness for the C7 theorem: removing "a" (oracle price 5) from an
order holding only "b". -/
theorem removeItem_not_in_order_witness :
    remove_item samplePrice (some { items := ["b"], total_cost := 3 }) "a" =
      (.itemNotInOrder, some { items := ["b"], total_cost := 3 }) ∧
    mutationHttp .itemNotInOrder = (400, [("error", .s "Item not in order")]) :=
  removeItem_not_in_order samplePrice _ "a" 5 (by decide) (by decide)

/-- Claim C7 counterexample: "a" is absent from the order AND unknown to
the oracle; the claim demands "Item not in order", but the code answers
"Item not found" because the oracle is consulted first. -/
theorem removeItem_unknown_item_counterexample :
    remove_item (fun _ => none) (some { items := ["b"], total_cost := 3 }) "a" =
      (.itemNotFound, some { items := ["b"], total_cost := 3 }) ∧
    OpResult.itemNotFound ≠ OpResult.itemNotInOrder ∧
    mutationHttp .itemNotFound = (400, [("error", .s "Item not found")]) :=
  ⟨rfl, by decide, rfl⟩

/-- Claim C8 (corrected): every intent message the checkout trace
publishes carries the rollback field equal to the JSON STRING "false" —
the field is spelled `is_roll_back` and is never true in any form, but it
is not the boolean `false` the claim states. -/
theorem rollback_string_false (gtid : String) (n : Nat)
    (fopt : Option (List (String × String))) (msgs : List (String × String)) :
    (checkoutEvents gtid n fopt msgs).all rollbackStringFalse = true := by
  cases fopt <;> rfl

/-- Claim C8 counterexample: the concrete messages checkout builds carry
`is_roll_back` = string "false", which is not the boolean false. -/
theorem rollback_not_boolean_counterexample :
    (stockCheckMsgOf ["i1"]).is_roll_back = .s "false" ∧
    (paymentMsgOf [("order_id", .s "o1")]).is_roll_back = .s "false" ∧
    FieldVal.s "false" ≠ .b false :=
  ⟨rfl, rfl, by decide⟩

/-- Claim C9 (confirmed): `remove_item` consults the price oracle before
the membership test, so whenever the oracle reports no price for the
item, the call fails with "Item not found" (HTTP 400) and leaves the
record unchanged — whether or not the item is in the order. -/
theorem removeItem_oracle_before_membership (price : String → Option Int)
    (o : OrderRec) (i : String) (hp : price i = none) :
    remove_item price (some o) i = (.itemNotFound, some o) ∧
    mutationHttp .itemNotFound = (400, [("error", .s "Item not found")]) :=
  ⟨by simp [remove_item, hp], rfl⟩

/-- Witness for the C9 theorem: the item IS in the order, yet the call
fails with "Item not found" because the oracle knows no price. -/
theorem removeItem_oracle_before_membership_witness :
    remove_item (fun _ => none) (some { items := ["a"], total_cost := 5 }) "a" =
      (.itemNotFound, some { items := ["a"], total_cost := 5 }) ∧
    mutationHttp .itemNotFound = (400, [("error", .s "Item not found")]) :=
  removeItem_oracle_before_membership (fun _ => none) _ "a" rfl

/-- Claim C10 (confirmed): `find_order` decodes only the `items` field;
for a freshly created order it returns `paid` as the string "False" and
`total_cost` as the decimal string "0"; and in general every non-`items`
field comes back as the stored string verbatim. -/
theorem find_decodes_only_items (uid oid : String) :
    find_order (create_order uid oid) =
      some [("order_id", .s oid), ("paid", .s "False"), ("items", .arr []),
            ("user_id", .s uid), ("total_cost", .s "0")] ∧
    (∀ od out k v, find_order od = some out → (k, v) ∈ od → k ≠ "items" →
      (k, FieldVal.s v) ∈ out) :=
  ⟨rfl, fun od out k v h hm hk => decodeFields_verbatim od out h k v hm hk⟩

/-- Witness for the C10 theorem at a concrete order: the fresh record's
`paid` field comes back as the verbatim string "False". -/
theorem find_decodes_only_items_witness :
    find_order (create_order "u1" "o1") =
      some [("order_id", .s "o1"), ("paid", .s "False"), ("items", .arr []),
            ("user_id", .s "u1"), ("total_cost", .s "0")] ∧
    ("paid", FieldVal.s "False") ∈
      [("order_id", FieldVal.s "o1"), ("paid", .s "False"), ("items", .arr []),
       ("user_id", .s "u1"), ("total_cost", .s "0")] :=
  have h := find_decodes_only_items "u1" "o1"
  ⟨h.1, h.2 (create_order "u1" "o1") _ "paid" "False" h.1 (by decide) (by decide)⟩
